import Mathlib

/-!
MySQL scaler (`pkg/scalers/mysql_scaler.go`).

A shallow embedding of the MySQL scaler: the configuration resolver
`parseMysqlMetadata`, the probe `getRecordCount`, and the facade methods
`IsActive`, `GetMetricSpecForScaling`, `GetMetrics` and `Close`.

Modelling conventions.

* A Go `map[string]string` is a lookup function `String → Option String`
  (`m k = some v` is the comma-ok read `v, ok := m[k]` with `ok = true`).
* Go `error` values are the inductive `GoError`; `nil` is `none`.
* The data source (`database/sql` with the MySQL driver) is a `Driver` record
  saying how each call answers; a poll returns the list of calls it made
  together with its `Outcome` (a normal return, or a run-time panic).
* `int` is 64 bits wide (`intSize`), as on the platforms KEDA is built for.
* Log calls (`mysqlLog.Error`, `mysqlLog.Info`) have no effect on results and
  are left out.
-/

namespace MysqlScaler

/-! ## Go values -/

/-- Go `map[string]string` read through the comma-ok form. -/
abbrev GoMap := String → Option String

/-- The map literal with the listed entries. -/
def GoMap.ofList (l : List (String × String)) : GoMap := fun k => l.lookup k

/-- The two sentinel causes a `*strconv.NumError` carries. -/
inductive NumErrorKind where
  /-- The sentinel `strconv.ErrSyntax`: invalid syntax. -/
  | errSyntax
  /-- The sentinel `strconv.ErrRange`: value out of range. -/
  | errRange
  deriving DecidableEq, Repr

/-- Go `error` values that occur in the scaler. -/
inductive GoError where
  /-- The error `fmt.Errorf(msg)` with a constant message. -/
  | errorf (msg : String)
  /-- The error `&strconv.NumError{Func: fn, Num: num, Err: kind}`. -/
  | numError (fn : String) (num : String) (kind : NumErrorKind)
  /-- The error `fmt.Errorf(pre + "%s", cause)`: a new error whose text is `pre`
  followed by the text of `cause`. -/
  | wrapped (pre : String) (cause : GoError)
  /-- An error value produced by `database/sql` or the MySQL driver. -/
  | driver (msg : String)
  deriving DecidableEq, Repr

/-- How a Go call ends: it returns `v`, or a run-time panic unwinds it. -/
inductive Outcome (α : Type) where
  | returned (v : α)
  | panicked
  deriving DecidableEq, Repr

/-! ## `strconv.Atoi` -/

/-- Width of Go `int` in bits (`strconv.IntSize`). -/
def intSize : Nat := 64

/-- The largest `uint64`. -/
def maxUint64 : Nat := 2 ^ 64 - 1

/-- The digit loop of `strconv.ParseUint(s, 10, 64)`: every byte must be a
decimal digit (anything else is a syntax error), and the accumulated value
must stay within `uint64` (else a range error, reported as soon as the
overflow happens). -/
def parseUintLoop : List Char → Nat → Except NumErrorKind Nat
  | [], n => .ok n
  | c :: cs, n =>
    if !('0' ≤ c && c ≤ '9') then .error .errSyntax
    else if n ≥ maxUint64 / 10 + 1 then .error .errRange
    else
      let n1 := n * 10 + (c.toNat - '0'.toNat)
      if n1 > maxUint64 then .error .errRange else parseUintLoop cs n1

/-- Go `strconv.ParseUint(s, 10, 64)`: the empty string is a syntax error. On a
range error Go returns the maximal value together with the error. -/
def parseUint (cs : List Char) : Nat × Option NumErrorKind :=
  match cs with
  | [] => (0, some .errSyntax)
  | _ =>
    match parseUintLoop cs 0 with
    | .ok n => (n, none)
    | .error .errRange => (maxUint64, some .errRange)
    | .error .errSyntax => (0, some .errSyntax)

/-- Go standard library `strconv.Atoi(s)`, that is `ParseInt(s, 10, 0)`: an
optional sign `+` or `-`, then one or more decimal digits, the value within
`int` (`-2^(intSize-1) .. 2^(intSize-1) - 1`). The error is a
`*strconv.NumError` with `Func = "Atoi"` and `Num = s`. -/
def strconvAtoi (s : String) : Except GoError Int :=
  match s.toList with
  | [] => .error (.numError "Atoi" s .errSyntax)
  | c :: cs =>
    let neg := c == '-'
    let body := if c == '+' || c == '-' then cs else c :: cs
    match parseUint body with
    | (_, some .errSyntax) => .error (.numError "Atoi" s .errSyntax)
    | (un, _) =>
      let cutoff : Nat := 2 ^ (intSize - 1)
      if !neg && un ≥ cutoff then .error (.numError "Atoi" s .errRange)
      else if neg && un > cutoff then .error (.numError "Atoi" s .errRange)
      else .ok (if neg then -(un : Int) else (un : Int))

/-- Conversion `int64(x)` of a Go integer: reduction into the signed 64-bit
range. -/
def toInt64 (x : Int) : Int := (x + 2 ^ 63) % 2 ^ 64 - 2 ^ 63

/-! ## Constants and the descriptor -/

def recordCountMetricName : String := "MysqlRecordCount"
def defaultMysqlHost : String := "dbserver.default.svc.cluster.local"
def defaultMysqlPort : String := "3306"
def defaultMysqlUser : String := "root"
def defaultMysqlPassword : String := ""

/-- The struct `mysqlMetadata`. -/
structure mysqlMetadata where
  targetRecordCount : Int
  host : String
  port : String
  user : String
  password : String
  database : String
  query : String
  deriving DecidableEq, Repr

/-- The struct `mysqlScaler`. -/
structure mysqlScaler where
  metadata : mysqlMetadata
  deriving DecidableEq, Repr

/-- The zero value `mysqlMetadata{}`. -/
def mysqlMetadata.zero : mysqlMetadata :=
  { targetRecordCount := 0, host := "", port := "", user := "", password := "",
    database := "", query := "" }

/-! ## Configuration resolver -/

/-- The function `parseMysqlMetadata(metadata, resolvedEnv, authParams)`, statement by
statement. The block that reads `metadata["host"]` assigns to `meta.port` in
both of its branches, as the source does. -/
def parseMysqlMetadata (metadata resolvedEnv authParams : GoMap) :
    Except GoError mysqlMetadata :=
  let m0 := mysqlMetadata.zero
  -- if val, ok := metadata["host"]; ok && val != "" { meta.port = val } else { meta.port = defaultMysqlHost }
  let m1 : mysqlMetadata :=
    match metadata "host" with
    | some val => if val ≠ "" then { m0 with port := val } else { m0 with port := defaultMysqlHost }
    | none => { m0 with port := defaultMysqlHost }
  -- if val, ok := metadata["port"]; ok && val != "" { meta.port = val } else { meta.port = defaultMysqlPort }
  let m2 : mysqlMetadata :=
    match metadata "port" with
    | some val => if val ≠ "" then { m1 with port := val } else { m1 with port := defaultMysqlPort }
    | none => { m1 with port := defaultMysqlPort }
  -- if val, ok := metadata["user"]; ok && val != "" { meta.user = val } else { meta.user = defaultMysqlUser }
  let m3 : mysqlMetadata :=
    match metadata "user" with
    | some val => if val ≠ "" then { m2 with user := val } else { m2 with user := defaultMysqlUser }
    | none => { m2 with user := defaultMysqlUser }
  -- meta.password = defaultMysqlPassword
  let m4 : mysqlMetadata := { m3 with password := defaultMysqlPassword }
  let m5 : mysqlMetadata :=
    match authParams "password" with
    | some val => { m4 with password := val }
    | none =>
      match metadata "password" with
      | some val =>
        if val ≠ "" then { m4 with password := val }
        else { m4 with password := defaultMysqlPassword }
      | none => { m4 with password := defaultMysqlPassword }
  match metadata "database" with
  | none => .error (.errorf "no database given")
  | some database =>
    let m6 : mysqlMetadata := { m5 with database := database }
    match metadata "query" with
    | none => .error (.errorf "no query given")
    | some query =>
      let m7 : mysqlMetadata := { m6 with query := query }
      match metadata "count" with
      | none => .error (.errorf "no count given")
      | some val =>
        match strconvAtoi val with
        | .error err => .error (.wrapped "Count parsing error " err)
        | .ok count => .ok { m7 with targetRecordCount := count }

/-- The constructor `NewMysqlScaler(resolvedEnv, metadata, authParams)`. -/
def NewMysqlScaler (resolvedEnv metadata authParams : GoMap) : Except GoError mysqlScaler :=
  match parseMysqlMetadata metadata resolvedEnv authParams with
  | .error err => .error (.wrapped "error parsing mysql metadata: " err)
  | .ok m => .ok { metadata := m }

/-! ## The data source -/

/-- The `context.Context` handed to a poll; `cancelled` says whether its
`Err()` is already non-nil when the poll begins. -/
structure Context where
  cancelled : Bool
  deriving DecidableEq, Repr

/-- What a `*sql.Rows` cursor does when iterated: `scans` has one entry per
row for which `Next()` answers true, the result of `Scan(&count)` on that row;
after them `Next()` answers false and `Err()` answers `iterErr`. -/
structure Rows where
  scans : List (Except GoError Int)
  iterErr : Option GoError

/-- How the data source answers. A `*sql.DB` handle is identified by the
data-source name it was opened with.
* `sqlOpen driverName dsn`: the error of `sql.Open(driverName, dsn)`;
* `ping dsn`: the error of `db.Ping()`;
* `query dsn q`: the result of `db.Query(q)`, a cursor or an error (with the
  error the returned `*sql.Rows` is nil). -/
structure Driver where
  sqlOpen : String → String → Option GoError
  ping : String → Option GoError
  query : String → String → Except GoError Rows

/-- The calls a poll makes on `database/sql`, in order. -/
inductive Call where
  | sqlOpen (driverName : String) (dsn : String)
  | dbPing
  | dbQuery (query : String)
  | rowsClose
  | dbClose
  deriving DecidableEq, Repr

/-- The loop `for rows.Next() { if err := rows.Scan(&count); err != nil
{ return -1, err } }` started with `count`: the first failing scan ends the
function with its error, a successful scan overwrites `count`. -/
def scanLoop : List (Except GoError Int) → Int → Except GoError Int
  | [], count => .ok count
  | .error err :: _, _ => .error err
  | .ok v :: rest, _ => scanLoop rest v

/-- The local `sqlUrl` of `getRecordCount`:
`fmt.Sprintf("%s:%s@%s:%s/%s?parseTime=true", user, password, host, port, database)`. -/
def sqlUrl (user password host port database : String) : String :=
  user ++ ":" ++ password ++ "@" ++ host ++ ":" ++ port ++ "/" ++ database ++ "?parseTime=true"

/-- The probe `getRecordCount(ctx, host, port, user, password, database, query)`: the
calls made and the outcome `(count, err)`.

The source never reads `ctx`: `sql.Open`, `db.Ping()` and `db.Query(query)`
are the variants without a context.

`defer rows.Close()` is registered before the `err` of `db.Query` is tested.
When the query fails `rows` is nil, and the deferred `(*sql.Rows).Close`,
which locks a field of its receiver, dereferences nil: the function ends in
a run-time panic (after the other deferred call, `db.Close()`, has run)
instead of returning `-1, err`. -/
def getRecordCount (drv : Driver) (ctx : Context)
    (host port user password database query : String) :
    List Call × Outcome (Int × Option GoError) :=
  let sqlUrl := sqlUrl user password host port database
  match drv.sqlOpen "mysql" sqlUrl with
  | some err => ([.sqlOpen "mysql" sqlUrl], .returned (-1, some err))
  | none =>
    -- defer db.Close()
    match drv.ping sqlUrl with
    | some err => ([.sqlOpen "mysql" sqlUrl, .dbPing, .dbClose], .returned (-1, some err))
    | none =>
      match drv.query sqlUrl query with
      | .error _ =>
        -- defer rows.Close() with rows == nil
        ([.sqlOpen "mysql" sqlUrl, .dbPing, .dbQuery query, .dbClose], .panicked)
      | .ok rows =>
        let calls := [.sqlOpen "mysql" sqlUrl, .dbPing, .dbQuery query, .rowsClose, .dbClose]
        -- var count int64
        match scanLoop rows.scans 0 with
        | .error err => (calls, .returned (-1, some err))
        | .ok count =>
          match rows.iterErr with
          | some err => (calls, .returned (-1, some err))
          | none => (calls, .returned (count, none))

/-! ## Adapter facade -/

/-- The type `resource.Format`. -/
inductive Format where
  | DecimalExponent
  | BinarySI
  | DecimalSI
  deriving DecidableEq, Repr

/-- The result of `resource.NewQuantity(value, format)`. -/
structure Quantity where
  value : Int
  format : Format
  deriving DecidableEq, Repr

/-- The function `resource.NewQuantity(value int64, format)`. -/
def NewQuantity (value : Int) (format : Format) : Quantity :=
  { value := value, format := format }

/-- The struct `v2beta1.ExternalMetricSource`; a nil pointer field is `none`. -/
structure ExternalMetricSource where
  MetricName : String
  MetricSelector : Option String
  TargetValue : Option Quantity
  TargetAverageValue : Option Quantity
  deriving DecidableEq, Repr

/-- The struct `v2beta1.MetricSpec`, with the `Type` and `External` fields (the scaler
leaves `Object`, `Pods` and `Resource` nil). -/
structure MetricSpec where
  specType : String
  External : Option ExternalMetricSource
  deriving DecidableEq, Repr

/-- The struct `external_metrics.ExternalMetricValue`, with the fields the scaler sets. -/
structure ExternalMetricValue where
  MetricName : String
  Value : Quantity
  Timestamp : Nat
  deriving DecidableEq, Repr

/-- The method `(s *mysqlScaler) IsActive(ctx)`. -/
def IsActive (drv : Driver) (s : mysqlScaler) (ctx : Context) :
    List Call × Outcome (Bool × Option GoError) :=
  match getRecordCount drv ctx s.metadata.host s.metadata.port s.metadata.user
      s.metadata.password s.metadata.database s.metadata.query with
  | (calls, .panicked) => (calls, .panicked)
  | (calls, .returned (_, some err)) => (calls, .returned (false, some err))
  | (calls, .returned (length, none)) => (calls, .returned (decide (length > 0), none))

/-- The method `(s *mysqlScaler) Close()`. -/
def Close (_s : mysqlScaler) : Option GoError := none

/-- The method `(s *mysqlScaler) GetMetricSpecForScaling()`. The package constant
`externalMetricType` is declared in another file of the package and is taken
as a parameter. -/
def GetMetricSpecForScaling (externalMetricType : String) (s : mysqlScaler) : List MetricSpec :=
  let targetRecordCountQty := NewQuantity (toInt64 s.metadata.targetRecordCount) .DecimalSI
  let externalMetric : ExternalMetricSource :=
    { MetricName := recordCountMetricName, MetricSelector := none, TargetValue := none,
      TargetAverageValue := some targetRecordCountQty }
  let metricSpec : MetricSpec := { External := some externalMetric, specType := externalMetricType }
  [metricSpec]

/-- The method `(s *mysqlScaler) GetMetrics(ctx, metricName, metricSelector)`; `now` is
the value `metav1.Now()` takes during the call. -/
def GetMetrics (drv : Driver) (now : Nat) (s : mysqlScaler) (ctx : Context)
    (metricName : String) (_metricSelector : String) :
    List Call × Outcome (List ExternalMetricValue × Option GoError) :=
  match getRecordCount drv ctx s.metadata.host s.metadata.port s.metadata.user
      s.metadata.password s.metadata.database s.metadata.query with
  | (calls, .panicked) => (calls, .panicked)
  | (calls, .returned (_, some err)) => (calls, .returned ([], some err))
  | (calls, .returned (count, none)) =>
    let metric : ExternalMetricValue :=
      { MetricName := metricName, Value := NewQuantity count .DecimalSI, Timestamp := now }
    (calls, .returned ([] ++ [metric], none))

/-! ## Resolved values -/

/-- The value an optional, possibly empty entry resolves to: the entry when
present and non-empty, else `dflt`. -/
def orDefault (o : Option String) (dflt : String) : String :=
  match o with
  | some val => if val ≠ "" then val else dflt
  | none => dflt

/-! ## Concrete inputs -/

/-- The resolved environment of the test file, `{"test": "test"}`. -/
def testMysqlResolvedEnv : GoMap := GoMap.ofList [("test", "test")]

/-- The empty map `map[string]string{}`. -/
def emptyMap : GoMap := GoMap.ofList []

/-- The "properly formed meta" entry of `testMysqlMetadata`. -/
def properMetadata : GoMap :=
  GoMap.ofList [("host", "host"), ("port", "3306"), ("user", "root"), ("password", "password"),
    ("database", "test"), ("query", "SELECT count(*) from users"), ("count", "10")]

/-- Required keys only, with the count `"-5"`. -/
def negativeCountMetadata : GoMap :=
  GoMap.ofList [("database", "test"), ("query", "SELECT count(*) from users"), ("count", "-5")]

/-- Auth parameters holding a password that differs from the inline one. -/
def secretAuthParams : GoMap := GoMap.ofList [("password", "s3cret")]

/-- The descriptor `parseMysqlMetadata` returns for `properMetadata`. -/
def properDescriptor : mysqlMetadata :=
  { targetRecordCount := 10, host := "", port := "3306", user := "root", password := "password",
    database := "test", query := "SELECT count(*) from users" }

/-- A data source where every step succeeds and the query yields the given
rows. -/
def healthyDriver (values : List Int) : Driver :=
  { sqlOpen := fun _ _ => none
    ping := fun _ => none
    query := fun _ _ => .ok { scans := values.map Except.ok, iterErr := none } }

/-- A data source that opens and answers the ping, and fails every query. -/
def failingQueryDriver : Driver :=
  { sqlOpen := fun _ _ => none
    ping := fun _ => none
    query := fun _ _ => .error (.driver "Error 1146: Table test.users does not exist") }

/-- The calls of a poll of `properDescriptor` that gets as far as a cursor. -/
def properCalls : List Call :=
  [.sqlOpen "mysql" "root:password@:3306/test?parseTime=true", .dbPing,
    .dbQuery "SELECT count(*) from users", .rowsClose, .dbClose]

/-! ## Facts about `strconv.Atoi` -/

/-- A value `strconvAtoi` returns lies within 64-bit `int`. -/
theorem strconvAtoi_range {s : String} {n : Int} (h : strconvAtoi s = .ok n) :
    -(2 : Int) ^ 63 ≤ n ∧ n < (2 : Int) ^ 63 := by
  unfold strconvAtoi at h
  split at h
  · simp at h
  · rename_i c cs _
    simp only at h
    split at h
    · simp at h
    · rename_i un _ _
      split at h
      · simp at h
      · split at h
        · simp at h
        · rename_i h1 h2
          simp only [Except.ok.injEq] at h
          subst h
          simp only [intSize, Bool.and_eq_true, Bool.not_eq_true', beq_eq_false_iff_ne, ne_eq,
            decide_eq_true_eq, not_and, not_le, beq_iff_eq, not_lt] at h1 h2
          by_cases hc : c = '-'
          · have := h2 hc
            simp only [hc, beq_self_eq_true, if_true]
            omega
          · have := h1 hc
            have hb : (c == '-') = false := by simpa using hc
            simp only [hb]
            simp only [Bool.false_eq_true, if_false]
            omega

/-- On the values `strconvAtoi` returns the conversion `int64(x)` is the
identity. -/
theorem toInt64_of_atoi {s : String} {n : Int} (h : strconvAtoi s = .ok n) : toInt64 n = n := by
  have := strconvAtoi_range h
  unfold toInt64
  omega

/-! ## Facts about the resolver -/

/-- Closed form of `parseMysqlMetadata`: the three required lookups decide
the outcome, and each field of a returned descriptor is given separately.
The `host` field keeps the zero value. -/
theorem parseMysqlMetadata_eq (metadata resolvedEnv authParams : GoMap) :
    parseMysqlMetadata metadata resolvedEnv authParams =
      match metadata "database", metadata "query", metadata "count" with
      | none, _, _ => .error (.errorf "no database given")
      | some _, none, _ => .error (.errorf "no query given")
      | some _, some _, none => .error (.errorf "no count given")
      | some d, some q, some c =>
        match strconvAtoi c with
        | .error err => .error (.wrapped "Count parsing error " err)
        | .ok n => .ok
          { targetRecordCount := n, host := "",
            port := orDefault (metadata "port") defaultMysqlPort,
            user := orDefault (metadata "user") defaultMysqlUser,
            password := match authParams "password" with
              | some val => val
              | none => orDefault (metadata "password") defaultMysqlPassword,
            database := d, query := q } := by
  unfold parseMysqlMetadata
  generalize metadata "host" = oh
  generalize metadata "port" = op
  generalize metadata "user" = ou
  generalize authParams "password" = oa
  generalize metadata "password" = ow
  generalize metadata "database" = od
  generalize metadata "query" = oq
  generalize metadata "count" = oc
  rcases od with _ | d
  · rfl
  rcases oq with _ | q
  · rfl
  rcases oc with _ | c
  · rfl
  simp only
  cases strconvAtoi c with
  | error e => rfl
  | ok n =>
    simp only [Except.ok.injEq]
    rcases oh with _ | vh <;> rcases op with _ | vp <;> rcases ou with _ | vu <;>
      rcases oa with _ | va <;> rcases ow with _ | vw <;>
      simp only [orDefault, mysqlMetadata.zero] <;> split_ifs <;> rfl

/-- The shape of every descriptor `parseMysqlMetadata` returns. -/
theorem parse_ok_shape {metadata resolvedEnv authParams : GoMap} {m : mysqlMetadata}
    (h : parseMysqlMetadata metadata resolvedEnv authParams = .ok m) :
    ∃ d q c n, metadata "database" = some d ∧ metadata "query" = some q ∧
      metadata "count" = some c ∧ strconvAtoi c = .ok n ∧
      m = { targetRecordCount := n, host := "",
            port := orDefault (metadata "port") defaultMysqlPort,
            user := orDefault (metadata "user") defaultMysqlUser,
            password := match authParams "password" with
              | some val => val
              | none => orDefault (metadata "password") defaultMysqlPassword,
            database := d, query := q } := by
  rw [parseMysqlMetadata_eq] at h
  cases hd : metadata "database" with
  | none => simp [hd] at h
  | some d =>
    cases hq : metadata "query" with
    | none => simp [hd, hq] at h
    | some q =>
      cases hc : metadata "count" with
      | none => simp [hd, hq, hc] at h
      | some c =>
        cases ha : strconvAtoi c with
        | error e => simp [hd, hq, hc, ha] at h
        | ok n =>
          simp only [hd, hq, hc, ha, Except.ok.injEq] at h
          exact ⟨d, q, c, n, rfl, rfl, rfl, ha, h.symm⟩

/-- Whenever the three required keys are present and the count parses,
`parseMysqlMetadata` returns a descriptor. -/
theorem parse_ok_of_required {metadata : GoMap} (resolvedEnv authParams : GoMap)
    {d q c : String} {n : Int}
    (hd : metadata "database" = some d) (hq : metadata "query" = some q)
    (hc : metadata "count" = some c) (ha : strconvAtoi c = .ok n) :
    ∃ m, parseMysqlMetadata metadata resolvedEnv authParams = .ok m := by
  rw [parseMysqlMetadata_eq]
  simp only [hd, hq, hc, ha]
  exact ⟨_, rfl⟩

/-- The outcome of `NewMysqlScaler` follows that of `parseMysqlMetadata`. -/
theorem NewMysqlScaler_ok_iff (resolvedEnv metadata authParams : GoMap) (s : mysqlScaler) :
    NewMysqlScaler resolvedEnv metadata authParams = .ok s ↔
      parseMysqlMetadata metadata resolvedEnv authParams = .ok s.metadata := by
  unfold NewMysqlScaler
  cases parseMysqlMetadata metadata resolvedEnv authParams with
  | error e => simp
  | ok m =>
    simp only [Except.ok.injEq]
    constructor
    · intro h; rw [← h]
    · intro h; cases s; simp_all

/-! ## Facts about the probe -/

/-- When every scan succeeds the loop ends with the last scanned value, or
with the starting value when there is no row. -/
theorem scanLoop_all_ok (vs : List Int) (count : Int) :
    scanLoop (vs.map Except.ok) count = .ok (vs.getLast?.getD count) := by
  induction vs generalizing count with
  | nil => rfl
  | cons v rest ih =>
    simp only [List.map_cons, scanLoop, ih]
    cases rest with
    | nil => rfl
    | cons w rest2 =>
      simp only [List.getLast?_cons_cons]
      cases hl : (w :: rest2).getLast? with
      | none => simp at hl
      | some x => rfl

/-- A failing `sql.Open` is returned as `-1, err`. -/
theorem getRecordCount_open_error (drv : Driver) (ctx : Context)
    (host port user password database query : String) (e : GoError)
    (h : drv.sqlOpen "mysql" (sqlUrl user password host port database) = some e) :
    (getRecordCount drv ctx host port user password database query).2 = .returned (-1, some e) := by
  simp [getRecordCount, h]

/-- A failing `db.Ping()` is returned as `-1, err`. -/
theorem getRecordCount_ping_error (drv : Driver) (ctx : Context)
    (host port user password database query : String) (e : GoError)
    (ho : drv.sqlOpen "mysql" (sqlUrl user password host port database) = none)
    (h : drv.ping (sqlUrl user password host port database) = some e) :
    (getRecordCount drv ctx host port user password database query).2 = .returned (-1, some e) := by
  simp [getRecordCount, ho, h]

/-- A failing `db.Query(query)` ends the poll in a panic. -/
theorem getRecordCount_query_error (drv : Driver) (ctx : Context)
    (host port user password database query : String) (e : GoError)
    (ho : drv.sqlOpen "mysql" (sqlUrl user password host port database) = none)
    (hp : drv.ping (sqlUrl user password host port database) = none)
    (h : drv.query (sqlUrl user password host port database) query = .error e) :
    (getRecordCount drv ctx host port user password database query).2 = .panicked := by
  simp [getRecordCount, ho, hp, h]

/-- A failing `rows.Scan(&count)` is returned as `-1, err`. -/
theorem getRecordCount_scan_error (drv : Driver) (ctx : Context)
    (host port user password database query : String) (rows : Rows) (e : GoError)
    (ho : drv.sqlOpen "mysql" (sqlUrl user password host port database) = none)
    (hp : drv.ping (sqlUrl user password host port database) = none)
    (hq : drv.query (sqlUrl user password host port database) query = .ok rows)
    (h : scanLoop rows.scans 0 = .error e) :
    (getRecordCount drv ctx host port user password database query).2 = .returned (-1, some e) := by
  simp [getRecordCount, ho, hp, hq, h]

/-- A non-nil `rows.Err()` after the loop is returned as `-1, err`. -/
theorem getRecordCount_iter_error (drv : Driver) (ctx : Context)
    (host port user password database query : String) (rows : Rows) (count : Int) (e : GoError)
    (ho : drv.sqlOpen "mysql" (sqlUrl user password host port database) = none)
    (hp : drv.ping (sqlUrl user password host port database) = none)
    (hq : drv.query (sqlUrl user password host port database) query = .ok rows)
    (hs : scanLoop rows.scans 0 = .ok count) (h : rows.iterErr = some e) :
    (getRecordCount drv ctx host port user password database query).2 = .returned (-1, some e) := by
  simp [getRecordCount, ho, hp, hq, hs, h]

/-! ## The claims -/

/-- C1 (evaluation at the failing input): for the well-formed test metadata,
whose `host` entry is `"host"`, `parseMysqlMetadata` succeeds with a
descriptor whose `host` field is the empty string; neither the given host nor
the default host is stored. The `port` and `user` fields hold the given
values. -/
theorem parse_proper_metadata_host_empty :
    parseMysqlMetadata properMetadata testMysqlResolvedEnv emptyMap = .ok properDescriptor ∧
      properMetadata "host" = some "host" ∧ properDescriptor.host = "" ∧
      parseMysqlMetadata negativeCountMetadata testMysqlResolvedEnv emptyMap =
        .ok { targetRecordCount := -5, host := "", port := "3306", user := "root",
              password := "", database := "test", query := "SELECT count(*) from users" } ∧
      negativeCountMetadata "host" = none :=
  ⟨rfl, rfl, rfl, rfl, rfl⟩

/-- C2: `parseMysqlMetadata` succeeds exactly when `metadata` has the keys
`database`, `query` and `count` and `strconv.Atoi` accepts the value of
`count`; `NewMysqlScaler` succeeds exactly when `parseMysqlMetadata` does;
when it does not succeed both return an error; and the outcome (success, or
which error) is the same for any other `resolvedEnv`, `authParams` and any
other `metadata` with the same `database`, `query` and `count` entries. -/
theorem parse_succeeds_iff (metadata resolvedEnv authParams : GoMap) :
    ((∃ m, parseMysqlMetadata metadata resolvedEnv authParams = .ok m) ↔
      ∃ d q c n, metadata "database" = some d ∧ metadata "query" = some q ∧
        metadata "count" = some c ∧ strconvAtoi c = .ok n) ∧
    ((∃ s, NewMysqlScaler resolvedEnv metadata authParams = .ok s) ↔
      ∃ m, parseMysqlMetadata metadata resolvedEnv authParams = .ok m) ∧
    ((¬ ∃ m, parseMysqlMetadata metadata resolvedEnv authParams = .ok m) →
      (∃ e, parseMysqlMetadata metadata resolvedEnv authParams = .error e) ∧
      ∃ e, NewMysqlScaler resolvedEnv metadata authParams = .error e) ∧
    (∀ metadata' resolvedEnv' authParams' : GoMap,
      metadata' "database" = metadata "database" → metadata' "query" = metadata "query" →
      metadata' "count" = metadata "count" →
      (parseMysqlMetadata metadata' resolvedEnv' authParams').map (fun _ => ()) =
        (parseMysqlMetadata metadata resolvedEnv authParams).map (fun _ => ())) := by
  refine ⟨⟨?_, ?_⟩, ⟨?_, ?_⟩, ?_, ?_⟩
  · rintro ⟨m, h⟩
    obtain ⟨d, q, c, n, hd, hq, hc, ha, _⟩ := parse_ok_shape h
    exact ⟨d, q, c, n, hd, hq, hc, ha⟩
  · rintro ⟨d, q, c, n, hd, hq, hc, ha⟩
    exact parse_ok_of_required resolvedEnv authParams hd hq hc ha
  · rintro ⟨s, h⟩
    exact ⟨s.metadata, (NewMysqlScaler_ok_iff _ _ _ _).1 h⟩
  · rintro ⟨m, h⟩
    exact ⟨⟨m⟩, (NewMysqlScaler_ok_iff _ _ _ _).2 h⟩
  · intro hno
    unfold NewMysqlScaler
    cases h : parseMysqlMetadata metadata resolvedEnv authParams with
    | error e => exact ⟨⟨e, rfl⟩, ⟨_, rfl⟩⟩
    | ok m => exact absurd ⟨m, h⟩ hno
  · intro metadata' resolvedEnv' authParams' hd hq hc
    rw [parseMysqlMetadata_eq, parseMysqlMetadata_eq, hd, hq, hc]
    cases metadata "database" <;> cases metadata "query" <;> cases metadata "count" <;>
      try rfl
    rename_i d q c
    simp only
    cases strconvAtoi c <;> rfl

/-- C3: on success the resolved password is `authParams["password"]` when
`authParams` has that entry (whatever `metadata["password"]` holds), otherwise
`metadata["password"]` when `metadata` has that entry, and the empty string
when neither has one. -/
theorem password_resolution (metadata resolvedEnv authParams : GoMap) (m : mysqlMetadata)
    (h : parseMysqlMetadata metadata resolvedEnv authParams = .ok m) :
    (∀ x, authParams "password" = some x → m.password = x) ∧
    (authParams "password" = none → ∀ y, metadata "password" = some y → m.password = y) ∧
    (authParams "password" = none → metadata "password" = none → m.password = "") := by
  obtain ⟨d, q, c, n, -, -, -, -, hm⟩ := parse_ok_shape h
  subst hm
  refine ⟨?_, ?_, ?_⟩
  · intro x hx
    simp only [hx]
  · intro ha y hy
    simp only [ha, hy, orDefault, defaultMysqlPassword]
    split_ifs with hne
    · rfl
    · exact (not_not.mp hne).symm
  · intro ha hw
    simp only [ha, hw, orDefault, defaultMysqlPassword]

/-- Witness for C3: with `authParams = {"password": "s3cret"}` and
`metadata["password"] = "password"` the resolved password is `"s3cret"`. -/
theorem password_resolution_witness :
    parseMysqlMetadata properMetadata testMysqlResolvedEnv secretAuthParams =
        .ok { properDescriptor with password := "s3cret" } ∧
      properMetadata "password" = some "password" ∧
      ({ properDescriptor with password := "s3cret" } : mysqlMetadata).password = "s3cret" :=
  ⟨rfl, rfl,
    (password_resolution properMetadata testMysqlResolvedEnv secretAuthParams
      { properDescriptor with password := "s3cret" } rfl).1 "s3cret" rfl⟩

/-- C4 (evaluation at the failing input): when the connection opens, the
ping succeeds and `db.Query` fails, `getRecordCount` does not return
`-1, err`: the deferred `rows.Close()` on the nil cursor panics, after the
calls open, ping, query and the deferred `db.Close()`. `IsActive` and
`GetMetrics` are unwound by the same panic and return nothing. -/
theorem query_failure_panics :
    getRecordCount failingQueryDriver { cancelled := false } properDescriptor.host
        properDescriptor.port properDescriptor.user properDescriptor.password
        properDescriptor.database properDescriptor.query =
      ([.sqlOpen "mysql" "root:password@:3306/test?parseTime=true", .dbPing,
        .dbQuery "SELECT count(*) from users", .dbClose], .panicked) ∧
    (IsActive failingQueryDriver { metadata := properDescriptor } { cancelled := false }).2 =
      .panicked ∧
    (GetMetrics failingQueryDriver 0 { metadata := properDescriptor } { cancelled := false }
      "MysqlRecordCount" "").2 = .panicked :=
  ⟨rfl, rfl, rfl⟩

/-- C5 (counterexample): with a context that is already cancelled and a
healthy data source whose query yields the single row 5, `IsActive` returns
`true` with no error and `GetMetrics` returns one value with no error, and
both have made the calls open, ping and query. -/
theorem cancelled_context_still_polls :
    IsActive (healthyDriver [5]) { metadata := properDescriptor } { cancelled := true } =
      (properCalls, .returned (true, none)) ∧
    GetMetrics (healthyDriver [5]) 0 { metadata := properDescriptor } { cancelled := true }
        "MysqlRecordCount" "" =
      (properCalls, .returned
        ([{ MetricName := "MysqlRecordCount", Value := ⟨5, .DecimalSI⟩, Timestamp := 0 }], none)) :=
  ⟨rfl, rfl⟩

/-- C5 (amended): a poll does not consult its context. For any two contexts,
cancelled or not, `IsActive` and `GetMetrics` make the same calls and end in
the same outcome, and the first call is always `sql.Open` on the data-source
name built from the descriptor. -/
theorem poll_ignores_context (drv : Driver) (now : Nat) (s : mysqlScaler) (ctx ctx' : Context)
    (metricName metricSelector : String) :
    IsActive drv s ctx = IsActive drv s ctx' ∧
    GetMetrics drv now s ctx metricName metricSelector =
      GetMetrics drv now s ctx' metricName metricSelector ∧
    (IsActive drv s ctx).1.head? = some (.sqlOpen "mysql"
      (sqlUrl s.metadata.user s.metadata.password s.metadata.host s.metadata.port
        s.metadata.database)) ∧
    (GetMetrics drv now s ctx metricName metricSelector).1.head? = some (.sqlOpen "mysql"
      (sqlUrl s.metadata.user s.metadata.password s.metadata.host s.metadata.port
        s.metadata.database)) := by
  refine ⟨rfl, rfl, ?_, ?_⟩
  · unfold IsActive getRecordCount
    simp only
    cases drv.sqlOpen "mysql" (sqlUrl s.metadata.user s.metadata.password s.metadata.host
      s.metadata.port s.metadata.database) with
    | some e => rfl
    | none =>
      cases drv.ping (sqlUrl s.metadata.user s.metadata.password s.metadata.host
        s.metadata.port s.metadata.database) with
      | some e => rfl
      | none =>
        cases drv.query (sqlUrl s.metadata.user s.metadata.password s.metadata.host
          s.metadata.port s.metadata.database) s.metadata.query with
        | error e => rfl
        | ok rows =>
          simp only
          cases scanLoop rows.scans 0 with
          | error e => rfl
          | ok count => cases rows.iterErr <;> rfl
  · unfold GetMetrics getRecordCount
    simp only
    cases drv.sqlOpen "mysql" (sqlUrl s.metadata.user s.metadata.password s.metadata.host
      s.metadata.port s.metadata.database) with
    | some e => rfl
    | none =>
      cases drv.ping (sqlUrl s.metadata.user s.metadata.password s.metadata.host
        s.metadata.port s.metadata.database) with
      | some e => rfl
      | none =>
        cases drv.query (sqlUrl s.metadata.user s.metadata.password s.metadata.host
          s.metadata.port s.metadata.database) s.metadata.query with
        | error e => rfl
        | ok rows =>
          simp only
          cases scanLoop rows.scans 0 with
          | error e => rfl
          | ok count => cases rows.iterErr <;> rfl

/-- C6 (counterexample): the specification returned for the test descriptor
carries a metric name different from `"RecordCount"`. -/
theorem metric_name_is_not_RecordCount :
    ∃ spec ext, spec ∈ GetMetricSpecForScaling "External" { metadata := properDescriptor } ∧
      spec.External = some ext ∧ ext.MetricName ≠ "RecordCount" :=
  ⟨_, _, List.mem_singleton.2 rfl, rfl, by decide⟩

/-- C6 (amended): for every descriptor the specification returned by
`GetMetricSpecForScaling` carries the fixed metric name `"MysqlRecordCount"`. -/
theorem metric_name_fixed (externalMetricType : String) (s : mysqlScaler) :
    (GetMetricSpecForScaling externalMetricType s).map
        (fun spec => spec.External.map (fun ext => ext.MetricName)) =
      [some "MysqlRecordCount"] := rfl

/-- C7: when `getRecordCount` returns the count `N` with no error, `IsActive`
returns `(N > 0, nil)` and `GetMetrics` returns, with no error, the one-element
list holding the requested metric name and the value `N`; so the flag of
`IsActive` is true exactly when the reported value is positive. -/
theorem facade_agrees_on_count (drv : Driver) (now : Nat) (s : mysqlScaler) (ctx : Context)
    (metricName metricSelector : String) (N : Int) (calls : List Call)
    (h : getRecordCount drv ctx s.metadata.host s.metadata.port s.metadata.user
      s.metadata.password s.metadata.database s.metadata.query = (calls, .returned (N, none))) :
    IsActive drv s ctx = (calls, .returned (decide (N > 0), none)) ∧
    GetMetrics drv now s ctx metricName metricSelector =
      (calls, .returned
        ([{ MetricName := metricName, Value := ⟨N, .DecimalSI⟩, Timestamp := now }], none)) ∧
    ∃ active value, (IsActive drv s ctx).2 = .returned (active, none) ∧
      (GetMetrics drv now s ctx metricName metricSelector).2 = .returned ([value], none) ∧
      (active = true ↔ 0 < value.Value.value) := by
  have h1 : IsActive drv s ctx = (calls, .returned (decide (N > 0), none)) := by
    unfold IsActive
    rw [h]
  have h2 : GetMetrics drv now s ctx metricName metricSelector =
      (calls, .returned
        ([{ MetricName := metricName, Value := ⟨N, .DecimalSI⟩, Timestamp := now }], none)) := by
    unfold GetMetrics
    rw [h]
    rfl
  refine ⟨h1, h2, _, _, by rw [h1], by rw [h2], ?_⟩
  simp

/-- Witness for C7: the test descriptor polled against a healthy data source
whose query yields 5. -/
theorem facade_agrees_on_count_witness :
    IsActive (healthyDriver [5]) { metadata := properDescriptor } { cancelled := false } =
      (properCalls, .returned (true, none)) ∧
    GetMetrics (healthyDriver [5]) 7 { metadata := properDescriptor } { cancelled := false }
        "MysqlRecordCount" "" =
      (properCalls, .returned
        ([{ MetricName := "MysqlRecordCount", Value := ⟨5, .DecimalSI⟩, Timestamp := 7 }], none)) :=
  let w := facade_agrees_on_count (healthyDriver [5]) 7 { metadata := properDescriptor }
    { cancelled := false } "MysqlRecordCount" "" 5 properCalls rfl
  ⟨w.1, w.2.1⟩

/-- C8: when construction succeeds and `strconv.Atoi` reads the count as `T`,
`GetMetricSpecForScaling` returns exactly one specification, of the external
kind, whose target average value is `T`; the result depends on the descriptor
alone, so every call on it returns the same specification. -/
theorem metric_spec_target (externalMetricType : String)
    (resolvedEnv metadata authParams : GoMap) (s : mysqlScaler) (c : String) (T : Int)
    (hs : NewMysqlScaler resolvedEnv metadata authParams = .ok s)
    (hc : metadata "count" = some c) (hT : strconvAtoi c = .ok T) :
    GetMetricSpecForScaling externalMetricType s =
      [{ specType := externalMetricType,
         External := some { MetricName := recordCountMetricName, MetricSelector := none,
                            TargetValue := none,
                            TargetAverageValue := some { value := T, format := .DecimalSI } } }] ∧
    ∀ s' : mysqlScaler, s'.metadata = s.metadata →
      GetMetricSpecForScaling externalMetricType s' =
        GetMetricSpecForScaling externalMetricType s := by
  have hp := (NewMysqlScaler_ok_iff _ _ _ _).1 hs
  obtain ⟨d, q, c', n, -, -, hc', ha, hm⟩ := parse_ok_shape hp
  rw [hc] at hc'
  cases hc'
  rw [hT] at ha
  cases ha
  constructor
  · unfold GetMetricSpecForScaling NewQuantity
    simp only [hm, toInt64_of_atoi hT]
  · intro s' h'
    cases s'
    cases s
    simp only at h'
    rw [h']

/-- Witness for C8: the test metadata, with count `"10"`, gives the target
average value 10. -/
theorem metric_spec_target_witness :
    NewMysqlScaler testMysqlResolvedEnv properMetadata emptyMap =
        .ok { metadata := properDescriptor } ∧
      GetMetricSpecForScaling "External" { metadata := properDescriptor } =
        [{ specType := "External",
           External := some { MetricName := "MysqlRecordCount", MetricSelector := none,
                              TargetValue := none,
                              TargetAverageValue := some { value := 10, format := .DecimalSI } } }] :=
  ⟨rfl, (metric_spec_target "External" testMysqlResolvedEnv properMetadata emptyMap
    { metadata := properDescriptor } "10" 10 rfl rfl rfl).1⟩

/-- C9 (counterexample): the count `"-5"` is accepted, and the descriptor
holds the negative target `-5`. -/
theorem negative_count_accepted :
    ∃ m, parseMysqlMetadata negativeCountMetadata testMysqlResolvedEnv emptyMap = .ok m ∧
      negativeCountMetadata "count" = some "-5" ∧ m.targetRecordCount = -5 ∧
      ¬ (0 ≤ m.targetRecordCount) :=
  ⟨_, rfl, rfl, rfl, by decide⟩

/-- C9 (amended): on success the descriptor's `targetRecordCount` is the
integer `strconv.Atoi` returns for `metadata["count"]`, a value of the 64-bit
`int` range `-2^63 .. 2^63 - 1`. -/
theorem target_count_is_atoi_value (metadata resolvedEnv authParams : GoMap) (m : mysqlMetadata)
    (h : parseMysqlMetadata metadata resolvedEnv authParams = .ok m) :
    ∃ c, metadata "count" = some c ∧ strconvAtoi c = .ok m.targetRecordCount ∧
      -(2 : Int) ^ 63 ≤ m.targetRecordCount ∧ m.targetRecordCount < (2 : Int) ^ 63 := by
  obtain ⟨d, q, c, n, -, -, hc, ha, hm⟩ := parse_ok_shape h
  subst hm
  exact ⟨c, hc, ha, strconvAtoi_range ha⟩

/-- Witness for C9 (amended): the test metadata, whose count is `"10"`. -/
theorem target_count_is_atoi_value_witness :
    parseMysqlMetadata properMetadata testMysqlResolvedEnv emptyMap = .ok properDescriptor ∧
      ∃ c, properMetadata "count" = some c ∧
        strconvAtoi c = .ok properDescriptor.targetRecordCount ∧
        -(2 : Int) ^ 63 ≤ properDescriptor.targetRecordCount ∧
        properDescriptor.targetRecordCount < (2 : Int) ^ 63 :=
  ⟨rfl, target_count_is_atoi_value properMetadata testMysqlResolvedEnv emptyMap
    properDescriptor rfl⟩

/-- C10: when the connection opens, the ping and the query succeed, every
one of the `n ≥ 1` rows scans to an integer and the end-of-iteration check
reports no error, `getRecordCount` returns the value of the last row with no
error, whatever the earlier rows hold. -/
theorem last_row_retained (drv : Driver) (ctx : Context)
    (host port user password database query : String) (rows : Rows) (vs : List Int)
    (hne : vs ≠ [])
    (ho : drv.sqlOpen "mysql" (sqlUrl user password host port database) = none)
    (hp : drv.ping (sqlUrl user password host port database) = none)
    (hq : drv.query (sqlUrl user password host port database) query = .ok rows)
    (hs : rows.scans = vs.map Except.ok) (hi : rows.iterErr = none) :
    (getRecordCount drv ctx host port user password database query).2 =
      .returned (vs.getLast hne, none) := by
  have hl : scanLoop rows.scans 0 = .ok (vs.getLast hne) := by
    rw [hs, scanLoop_all_ok, List.getLast?_eq_getLast vs hne]
    rfl
  simp [getRecordCount, ho, hp, hq, hl, hi]

/-- Witness for C10: the rows 7, 0, 3 give the count 3. -/
theorem last_row_retained_witness :
    (getRecordCount (healthyDriver [7, 0, 3]) { cancelled := false } "" "3306" "root" "password"
      "test" "SELECT id from users").2 = .returned (3, none) :=
  last_row_retained (healthyDriver [7, 0, 3]) { cancelled := false } "" "3306" "root" "password"
    "test" "SELECT id from users" { scans := [7, 0, 3].map Except.ok, iterErr := none } [7, 0, 3]
    (by decide) rfl rfl rfl rfl rfl

end MysqlScaler
